import Mathlib

/-!
Shallow embedding of the conversion-readiness scoring engine
(`analytics/scoring.py`, `analytics/signals.py`, `data/generator.py`).

Python floats are modelled by exact rationals (`ℚ`) wherever the source only
performs field arithmetic and comparisons, and by reals (`ℝ`) where the source
calls `np.log10`.  Pandas NaN/inf float values (which arise in
`Series.pct_change` on zero denominators) are modelled by the `PdVal` type.
Python `round(x, n)` is round-half-to-even, modelled by `rheQ` / `rheR`.
-/

namespace Conv

/-! ### Category scorers (`analytics/scoring.py`) -/

/-- Source function `_normalize_spend_log(spend, max_spend=80_000)`:
`0` when `spend <= 0`, else
`min(100, max(0, (log10(max(spend,1)) - log10(500)) / (log10(max_spend) - log10(500)) * 100))`. -/
noncomputable def normalize_spend_log (spend max_spend : ℚ) : ℝ :=
  if spend ≤ 0 then 0
  else
    min 100 (max 0 ((Real.logb 10 (max (spend : ℝ) 1) - Real.logb 10 500) /
      (Real.logb 10 (max_spend : ℝ) - Real.logb 10 500) * 100))

/-- Source function `_score_growth`: `>=0.50 -> 100`; `[0.20,0.50) -> 40+(x-0.20)/0.30*60`;
`[0,0.20) -> x/0.20*40`; negative -> `max(0, 20+x*100)`. -/
def score_growth (growth_rate : ℚ) : ℚ :=
  if 0.50 ≤ growth_rate then 100
  else if 0.20 ≤ growth_rate then 40 + (growth_rate - 0.20) / 0.30 * 60
  else if 0 ≤ growth_rate then growth_rate / 0.20 * 40
  else max 0 (20 + growth_rate * 100)

/-- Source function `_score_daily_requests`: `0` when `<= 0`, else
`min(100, max(0, log10(max(x,1)) / log10(100_000) * 100))`. -/
noncomputable def score_daily_requests (daily_requests : ℤ) : ℝ :=
  if daily_requests ≤ 0 then 0
  else
    min 100 (max 0 (Real.logb 10 (max (daily_requests : ℝ) 1) /
      Real.logb 10 100000 * 100))

/-- Source function `_score_prod_ratio`: `>=0.95 -> 100`; `[0.40,0.95) -> (x-0.40)/0.55*100`;
below `0.40` -> `x/0.40*10`. -/
def score_prod_ratio (prod_ratio : ℚ) : ℚ :=
  if 0.95 ≤ prod_ratio then 100
  else if 0.40 ≤ prod_ratio then (prod_ratio - 0.40) / 0.55 * 100
  else prod_ratio / 0.40 * 10

/-- Source function `_score_error_rate`: sweet spot `[0.005, 0.02] -> 100`; `< 0.005 -> 50+x/0.005*50`;
`(0.02, 0.05] -> max(0, 100-(x-0.02)/0.03*80)`; above -> `max(0, 20-(x-0.05)/0.05*20)`. -/
def score_error_rate (error_rate : ℚ) : ℚ :=
  if 0.005 ≤ error_rate ∧ error_rate ≤ 0.02 then 100
  else if error_rate < 0.005 then 50 + error_rate / 0.005 * 50
  else if error_rate ≤ 0.05 then max 0 (100 - (error_rate - 0.02) / 0.03 * 80)
  else max 0 (20 - (error_rate - 0.05) / 0.05 * 20)

/-- Source function `_score_model_diversity`: `>=3 -> 100`, `2 -> 60`, `1 -> 20`, else `0`. -/
def score_model_diversity (n_models : ℕ) : ℚ :=
  if 3 ≤ n_models then 100
  else if n_models = 2 then 60
  else if n_models = 1 then 20
  else 0

/-- Source function `_score_domain_users`: `>=10 -> 100`, else `x/10*100`. -/
def score_domain_users (unique_users : ℕ) : ℚ :=
  if 10 ≤ unique_users then 100 else (unique_users : ℚ) / 10 * 100

/-- Source function `_score_enterprise_seats`: `>=100 -> 100`; `>0 -> min(100, x/100*100)`; else `0`. -/
def score_enterprise_seats (seats : ℕ) : ℚ :=
  if 100 ≤ seats then 100
  else if 0 < seats then min 100 ((seats : ℚ) / 100 * 100)
  else 0

/-- Source function `_score_cross_channel`: `channel_score = min(100, (n_channels-1)*40)`, and a
`+20` bonus (clamped at 100) when `marketplace_to_direct > 3.0`.
`n_channels` is an `ℤ` because Python evaluates `(0-1)*40 = -40`. -/
def score_cross_channel (n_channels : ℤ) (marketplace_to_direct : ℚ) : ℚ :=
  let channel_score : ℚ := min 100 (((n_channels : ℚ) - 1) * 40)
  if 3.0 < marketplace_to_direct then min 100 (channel_score + 20)
  else channel_score

/-- Source function `_compute_risk_penalty`: sequential additions
(`>14` days -> `+4`; `(7,14]` days -> `+(d-7)/7*4`; negative growth ->
`+min(4, |g|*20)`; `<=1` models -> `+2`) followed by `min(10.0, penalty)`. -/
def compute_risk_penalty (days_inactive : ℤ) (growth_rate : ℚ) (n_models : ℕ) : ℚ :=
  let p1 : ℚ :=
    if 14 < days_inactive then 4.0
    else if 7 < days_inactive then ((days_inactive : ℚ) - 7) / 7 * 4.0
    else 0
  let p2 : ℚ := if growth_rate < 0 then min 4.0 (|growth_rate| * 20) else 0
  let p3 : ℚ := if n_models ≤ 1 then 2.0 else 0
  min 10.0 (p1 + p2 + p3)

/-! ### Enriched account row and `score_account` -/

/-- The fields of an enriched account row that `score_account` reads.
`computed_growth_rate` and `n_active_channels` are always present after
`compute_all_signals` (the `row.get` fallbacks to `growth_rate` / `n_channels`
never fire on the enriched frame). -/
structure Row where
  latest_total_spend : ℚ
  computed_growth_rate : ℚ
  daily_requests : ℤ
  prod_ratio : ℚ
  error_rate : ℚ
  n_models : ℕ
  unique_users : ℕ
  enterprise_seats : ℕ
  n_active_channels : ℕ
  marketplace_to_direct : ℚ
  days_inactive : ℤ

/-- Aggregation `usage_intensity = spend_score*0.4 + growth_score*0.4 + request_score*0.2`. -/
noncomputable def usage_intensity (row : Row) : ℝ :=
  normalize_spend_log row.latest_total_spend 80000 * 0.4
    + (score_growth row.computed_growth_rate : ℝ) * 0.4
    + score_daily_requests row.daily_requests * 0.2

/-- Aggregation `production_maturity = prod_score*0.4 + error_score*0.3 + model_score*0.3`. -/
def production_maturity (row : Row) : ℚ :=
  score_prod_ratio row.prod_ratio * 0.4
    + score_error_rate row.error_rate * 0.3
    + score_model_diversity row.n_models * 0.3

/-- Aggregation `team_adoption = users_score*0.6 + seats_score*0.4`. -/
def team_adoption (row : Row) : ℚ :=
  score_domain_users row.unique_users * 0.6
    + score_enterprise_seats row.enterprise_seats * 0.4

/-- Aggregation `cross_channel = _score_cross_channel(n_active_channels, marketplace_to_direct)`. -/
def cross_channel (row : Row) : ℚ :=
  score_cross_channel (row.n_active_channels : ℤ) row.marketplace_to_direct

/-- Aggregation `risk_penalty = _compute_risk_penalty(days_inactive, computed_growth_rate, n_models)`. -/
def risk_penalty (row : Row) : ℚ :=
  compute_risk_penalty row.days_inactive row.computed_growth_rate row.n_models

/-- Composite `total_score = max(0, min(100, raw_score - risk_penalty))` with
`raw_score = usage*0.30 + production*0.25 + team*0.20 + cross*0.15`. -/
noncomputable def total_score (row : Row) : ℝ :=
  max 0 (min 100
    (usage_intensity row * 0.30
      + (production_maturity row : ℝ) * 0.25
      + (team_adoption row : ℝ) * 0.20
      + (cross_channel row : ℝ) * 0.15
      - (risk_penalty row : ℝ)))

/-- Constant `STAGE_THRESHOLDS` from `scoring.py`. -/
def STAGE_THRESHOLDS : List (ℚ × String) :=
  [(78, "Enterprise Ready"), (63, "High Velocity"), (48, "Qualified"),
   (33, "Nurture"), (0, "At Risk")]

/-- The stage-assignment loop: `stage = "At Risk"`, then the first threshold
with `total_score >= threshold` wins and breaks. -/
noncomputable def firstStage : List (ℚ × String) → ℝ → String
  | [], _ => "At Risk"
  | (t, name) :: rest, s => if (t : ℝ) ≤ s then name else firstStage rest s

/-- Stage assignment applied to the unrounded `total_score`. -/
noncomputable def assign_stage (s : ℝ) : String :=
  firstStage STAGE_THRESHOLDS s

/-! ### Python banker's rounding -/

/-- Round-half-to-even to an integer (`ℚ` version). -/
def rheQ (x : ℚ) : ℤ :=
  if x - ⌊x⌋ < 1/2 then ⌊x⌋
  else if (1/2 : ℚ) < x - ⌊x⌋ then ⌊x⌋ + 1
  else if ⌊x⌋ % 2 = 0 then ⌊x⌋ else ⌊x⌋ + 1

/-- Python `round(x, 4)` on exact values. -/
def round4 (x : ℚ) : ℚ := (rheQ (x * 10000) : ℚ) / 10000

/-- Python `round(x, 2)` on exact values. -/
def round2 (x : ℚ) : ℚ := (rheQ (x * 100) : ℚ) / 100

/-- Round-half-to-even to an integer (`ℝ` version). -/
noncomputable def rheR (x : ℝ) : ℤ :=
  if x - ⌊x⌋ < 1/2 then ⌊x⌋
  else if (1/2 : ℝ) < x - ⌊x⌋ then ⌊x⌋ + 1
  else if ⌊x⌋ % 2 = 0 then ⌊x⌋ else ⌊x⌋ + 1

/-- Python `round(x, 1)` over `ℝ`. -/
noncomputable def round1R (x : ℝ) : ℝ := (rheR (x * 10) : ℝ) / 10

/-- The dict returned by `score_account`. -/
structure ScoreResult where
  conversion_score : ℝ
  stage : String
  usage_intensity_score : ℝ
  production_maturity_score : ℝ
  team_adoption_score : ℝ
  cross_channel_score : ℝ
  risk_penalty : ℝ

/-- Source function `score_account`: the stage is assigned from the unrounded `total_score`;
the returned scores are rounded to one decimal place. -/
noncomputable def score_account (row : Row) : ScoreResult :=
  { conversion_score := round1R (total_score row)
    stage := assign_stage (total_score row)
    usage_intensity_score := round1R (usage_intensity row)
    production_maturity_score := round1R (production_maturity row : ℝ)
    team_adoption_score := round1R (team_adoption row : ℝ)
    cross_channel_score := round1R (cross_channel row : ℝ)
    risk_penalty := round1R (risk_penalty row : ℝ) }

/-! ### Signals (`analytics/signals.py`)

Pandas float semantics for `pct_change`: a change whose previous value is `0`
is `0/0 = NaN` when the current value is also `0` (dropped by `dropna`), and
`±inf` when the current value is nonzero (NOT dropped by `dropna`).  `PdVal`
models these special float values over exact rationals. -/

/-- A pandas float cell: finite, `+inf`, `-inf`, or `NaN`. -/
inductive PdVal where
  | nan : PdVal
  | posinf : PdVal
  | neginf : PdVal
  | fin : ℚ → PdVal
deriving DecidableEq, Repr

/-- One entry of `Series.pct_change`: `(cur - prev) / prev` with IEEE rules
for a zero previous value. -/
def pctOne (prev cur : ℚ) : PdVal :=
  if prev = 0 then
    if cur = 0 then .nan else if 0 < cur then .posinf else .neginf
  else .fin ((cur - prev) / prev)

/-- `Series.pct_change().dropna()` keeps one change per consecutive pair
(the leading NaN of `pct_change` is already dropped here). -/
def pct_changes : List ℚ → List PdVal
  | [] => []
  | [_] => []
  | a :: b :: rest => pctOne a b :: pct_changes (b :: rest)

/-- Pandas `dropna`: removes NaN entries only (infinities are kept). -/
def dropna (l : List PdVal) : List PdVal :=
  l.filter fun v => match v with | .nan => false | _ => true

/-- Float addition on pandas cells. -/
def pdAdd : PdVal → PdVal → PdVal
  | .nan, _ => .nan
  | _, .nan => .nan
  | .posinf, .neginf => .nan
  | .neginf, .posinf => .nan
  | .posinf, _ => .posinf
  | _, .posinf => .posinf
  | .neginf, _ => .neginf
  | _, .neginf => .neginf
  | .fin a, .fin b => .fin (a + b)

/-- Pandas `Series.sum` via float addition. -/
def pdSum (l : List PdVal) : PdVal := l.foldl pdAdd (.fin 0)

/-- Division by a (positive) length, as in `Series.mean`. -/
def pdDivNat (v : PdVal) (n : ℕ) : PdVal :=
  match v with
  | .nan => .nan
  | .posinf => .posinf
  | .neginf => .neginf
  | .fin q => .fin (q / (n : ℚ))

/-- Annualization `(1 + avg)**12 - 1` with float rules: `(1 + inf)^12 - 1 = inf` and
`(1 - inf)^12 - 1 = (-inf)^12 - 1 = inf` (even power). -/
def pdAnnualize : PdVal → PdVal
  | .nan => .nan
  | .posinf => .posinf
  | .neginf => .posinf
  | .fin q => .fin ((1 + q) ^ 12 - 1)

/-- Pandas `Series.tail(4)`: the last (at most) 4 entries. -/
def lastN (n : ℕ) (l : List ℚ) : List ℚ := l.drop (l.length - n)

/-- Source function `compute_growth_rate` from `signals.py`, applied to the per-bucket spend
sums, already grouped by `month_idx`, summed and sorted (the upstream
`groupby("month_idx")["spend"].sum().sort_index()` of the source; an absent
account yields the empty list, covered by the `< 2` guard). -/
def compute_growth_rate (monthly_totals : List ℚ) : PdVal :=
  if monthly_totals.length < 2 then .fin 0
  else
    let recent := lastN 4 monthly_totals
    let growth_rates := dropna (pct_changes recent)
    if growth_rates = [] then .fin 0
    else pdAnnualize (pdDivNat (pdSum growth_rates) growth_rates.length)

/-- Float multiplication by a rational constant (`growth * 0.3`). -/
def pdScale (c : ℚ) : PdVal → PdVal
  | .nan => .nan
  | .posinf => if 0 < c then .posinf else if c < 0 then .neginf else .nan
  | .neginf => if 0 < c then .neginf else if c < 0 then .posinf else .nan
  | .fin q => .fin (q * c)

/-- Python `round(x, 4)` leaves non-finite values unchanged. -/
def pdRound4 : PdVal → PdVal
  | .fin q => .fin (round4 q)
  | v => v

/-- The `computed_growth_rate` field built by `compute_all_signals`:
`round(stored_growth * 0.7 + growth * 0.3, 4)`. -/
def blended_growth (stored_growth : ℚ) (growth : PdVal) : PdVal :=
  pdRound4 (pdAdd (.fin (stored_growth * 0.7)) (pdScale 0.3 growth))

/-- Derived `n_active_channels` from `compute_all_signals`: the number of the four
channel-spend fields that are strictly positive. -/
def n_active_channels (direct bedrock vertex seats : ℚ) : ℕ :=
  (if 0 < direct then 1 else 0) + (if 0 < bedrock then 1 else 0)
    + (if 0 < vertex then 1 else 0) + (if 0 < seats then 1 else 0)

/-! ### Marketplace ratio (`data/generator.py`) -/

/-- Generator field `marketplace_to_direct = round(marketplace_spend / direct_spend, 2) if
direct_spend > 0 else 99.0`. -/
def marketplace_to_direct_ratio (marketplace_spend direct_spend : ℚ) : ℚ :=
  if 0 < direct_spend then round2 (marketplace_spend / direct_spend) else 99.0

/-! ### Recommended action (`get_recommended_action`) -/

/-- The fields of a scored row that `get_recommended_action` reads. -/
structure ScoredRow where
  stage : String
  enterprise_seats : ℕ
  n_models : ℕ
  prod_ratio : ℚ
  computed_growth_rate : ℚ
  days_inactive : ℤ

/-- Source function `get_recommended_action`: branch on stage, then on the per-stage
conditions, first match winning. -/
def get_recommended_action (row : ScoredRow) : String :=
  if row.stage = "Enterprise Ready" then
    "Route to AE for enterprise contract discussion"
  else if row.stage = "High Velocity" then
    if row.enterprise_seats = 0 then
      "Introduce Claude for Enterprise; schedule product demo"
    else "Monitor for trigger event; prepare custom pricing proposal"
  else if row.stage = "Qualified" then
    if row.n_models ≤ 1 then
      "Share multi-model use case guide; suggest Sonnet for cost optimization"
    else if row.prod_ratio < 0.6 then
      "Offer production deployment support; share best practices"
    else "Assign SDR for discovery call; share enterprise case studies"
  else if row.stage = "Nurture" then
    if row.computed_growth_rate < 0 then
      "Trigger re-engagement campaign; offer office hours"
    else "Add to nurture sequence; share relevant content"
  else
    if 14 < row.days_inactive then
      "CSM outreach: check-in call to understand blockers"
    else "CSM intervention: identify churn risk factors"

/-! ### Specification-side growth derivation

Definitions written from the specification's words, used only to compare the
source's `compute_growth_rate` against the spec's description of the normal
(all-buckets-positive) path. -/

/-- Modelled from the spec: rational period-over-period percentage change of
each consecutive pair. -/
def spec_pct_changes : List ℚ → List ℚ
  | [] => []
  | [_] => []
  | a :: b :: rest => (b - a) / a :: spec_pct_changes (b :: rest)

/-- Modelled from the spec: the average of a list of changes. -/
def spec_avg (l : List ℚ) : ℚ := l.sum / (l.length : ℚ)

/-! ### Shared evaluation lemmas -/

theorem normalize_spend_log_80000 : normalize_spend_log 80000 80000 = 100 := by
  have hd : Real.logb 10 500 < Real.logb 10 80000 :=
    Real.logb_lt_logb (by norm_num) (by norm_num) (by norm_num)
  rw [normalize_spend_log, if_neg (by norm_num)]
  push_cast
  rw [max_eq_left (by norm_num : (1:ℝ) ≤ 80000)]
  rw [div_self (sub_ne_zero.mpr hd.ne')]
  norm_num

theorem normalize_spend_log_zero : normalize_spend_log 0 80000 = 0 := by
  rw [normalize_spend_log, if_pos le_rfl]

theorem score_daily_requests_100000 : score_daily_requests 100000 = 100 := by
  have h : (0:ℝ) < Real.logb 10 100000 := Real.logb_pos (by norm_num) (by norm_num)
  rw [score_daily_requests, if_neg (by norm_num)]
  push_cast
  rw [max_eq_left (by norm_num : (1:ℝ) ≤ 100000)]
  rw [div_self h.ne']
  norm_num

theorem score_daily_requests_zero : score_daily_requests 0 = 0 := by
  rw [score_daily_requests, if_pos le_rfl]

/-- The stage loop written as nested conditionals over real thresholds. -/
theorem assign_stage_ite (s : ℝ) : assign_stage s =
    (if (78:ℝ) ≤ s then "Enterprise Ready" else if (63:ℝ) ≤ s then "High Velocity"
    else if (48:ℝ) ≤ s then "Qualified" else if (33:ℝ) ≤ s then "Nurture"
    else if (0:ℝ) ≤ s then "At Risk" else "At Risk") := by
  rw [assign_stage, STAGE_THRESHOLDS]
  simp only [firstStage]
  norm_num

/-- On nonnegative inputs the growth scorer is `min 100 (200x)`. -/
theorem score_growth_nonneg_eq (x : ℚ) (hx : 0 ≤ x) :
    score_growth x = min 100 (x * 200) := by
  rw [score_growth]
  split_ifs with h1 h2
  · rw [min_eq_left (by linarith)]
  · rw [min_eq_right (by linarith)]; ring
  · rw [min_eq_right (by linarith)]; ring

/-- Positive pairs yield only finite pandas percentage changes. -/
theorem pct_changes_of_ne_zero : ∀ (l : List ℚ), (∀ x ∈ l, x ≠ 0) →
    pct_changes l = (spec_pct_changes l).map PdVal.fin
  | [], _ => rfl
  | [_], _ => rfl
  | a :: b :: r, hl => by
    have ha : a ≠ 0 := hl a (by simp)
    have ih := pct_changes_of_ne_zero (b :: r)
      (fun x hx => hl x (List.mem_cons_of_mem a hx))
    simp only [pct_changes, spec_pct_changes, List.map, pctOne, if_neg ha, ih]

theorem dropna_map_fin (l : List ℚ) : dropna (l.map PdVal.fin) = l.map PdVal.fin := by
  rw [dropna, List.filter_eq_self]
  intro v hv
  obtain ⟨q, _, rfl⟩ := List.mem_map.mp hv
  rfl

theorem pdSum_map_fin (l : List ℚ) : pdSum (l.map PdVal.fin) = .fin l.sum := by
  have aux : ∀ (t : List ℚ) (q : ℚ),
      List.foldl pdAdd (.fin q) (t.map PdVal.fin) = .fin (q + t.sum) := by
    intro t
    induction t with
    | nil => intro q; simp
    | cons a r ih => intro q; simp [pdAdd, ih, add_assoc]
  simpa using aux l 0

theorem spec_pct_changes_length : ∀ l : List ℚ,
    (spec_pct_changes l).length = l.length - 1
  | [] => rfl
  | [_] => rfl
  | a :: b :: r => by
    simp [spec_pct_changes, spec_pct_changes_length (b :: r)]

/-! ### Concrete enriched rows used as test points -/

/-- A row saturating all four categories at 100 with zero risk penalty. -/
def rowSat : Row :=
  { latest_total_spend := 80000, computed_growth_rate := 1/2, daily_requests := 100000,
    prod_ratio := 0.95, error_rate := 0.01, n_models := 3, unique_users := 10,
    enterprise_seats := 100, n_active_channels := 4, marketplace_to_direct := 1,
    days_inactive := 0 }

/-- A row with all four categories at 0 and maximal risk penalty 10. -/
def rowZero : Row :=
  { latest_total_spend := 0, computed_growth_rate := -1/5, daily_requests := 0,
    prod_ratio := 0, error_rate := 1/10, n_models := 0, unique_users := 0,
    enterprise_seats := 0, n_active_channels := 1, marketplace_to_direct := 0,
    days_inactive := 10000 }

/-- A row whose unrounded composite is exactly 77.96. -/
def rowMid : Row :=
  { latest_total_spend := 80000, computed_growth_rate := 1/4, daily_requests := 100000,
    prod_ratio := 6178/10000, error_rate := 1/100, n_models := 3, unique_users := 10,
    enterprise_seats := 100, n_active_channels := 4, marketplace_to_direct := 1,
    days_inactive := 0 }

theorem rowSat_usage : usage_intensity rowSat = 100 := by
  rw [usage_intensity]
  show normalize_spend_log 80000 80000 * 0.4 + _ + score_daily_requests 100000 * 0.2 = 100
  rw [normalize_spend_log_80000, score_daily_requests_100000]
  have hg : score_growth ((1:ℚ)/2) = 100 := by norm_num [score_growth]
  rw [show rowSat.computed_growth_rate = (1:ℚ)/2 from rfl, hg]
  norm_num

theorem rowSat_production : production_maturity rowSat = 100 := by
  norm_num [production_maturity, score_prod_ratio, score_error_rate,
    score_model_diversity, rowSat]

theorem rowSat_team : team_adoption rowSat = 100 := by
  norm_num [team_adoption, score_domain_users, score_enterprise_seats, rowSat]

theorem rowSat_cross : cross_channel rowSat = 100 := by
  norm_num [cross_channel, score_cross_channel, rowSat]

theorem rowSat_risk : risk_penalty rowSat = 0 := by
  norm_num [risk_penalty, compute_risk_penalty, rowSat]

theorem rowSat_total : total_score rowSat = 90 := by
  rw [total_score, rowSat_usage, rowSat_production, rowSat_team, rowSat_cross,
    rowSat_risk]
  push_cast
  norm_num

theorem rowZero_usage : usage_intensity rowZero = 0 := by
  rw [usage_intensity]
  show normalize_spend_log 0 80000 * 0.4 + _ + score_daily_requests 0 * 0.2 = 0
  rw [normalize_spend_log_zero, score_daily_requests_zero]
  have hg : score_growth (-1/5 : ℚ) = 0 := by norm_num [score_growth]
  rw [show rowZero.computed_growth_rate = (-1/5 : ℚ) from rfl, hg]
  norm_num

theorem rowZero_production : production_maturity rowZero = 0 := by
  norm_num [production_maturity, score_prod_ratio, score_error_rate,
    score_model_diversity, rowZero]

theorem rowZero_team : team_adoption rowZero = 0 := by
  norm_num [team_adoption, score_domain_users, score_enterprise_seats, rowZero]

theorem rowZero_cross : cross_channel rowZero = 0 := by
  norm_num [cross_channel, score_cross_channel, rowZero]

theorem rowZero_risk : risk_penalty rowZero = 10 := by
  norm_num [risk_penalty, compute_risk_penalty, rowZero, min_def, abs_of_nonneg,
    abs_of_nonpos]

theorem rowZero_total : total_score rowZero = 0 := by
  rw [total_score, rowZero_usage, rowZero_production, rowZero_team, rowZero_cross,
    rowZero_risk]
  push_cast
  norm_num

theorem rowMid_total : total_score rowMid = 77.96 := by
  have hu : usage_intensity rowMid = 80 := by
    rw [usage_intensity]
    show normalize_spend_log 80000 80000 * 0.4 + _ + score_daily_requests 100000 * 0.2 = 80
    rw [normalize_spend_log_80000, score_daily_requests_100000]
    have hg : score_growth ((1:ℚ)/4) = 50 := by norm_num [score_growth]
    rw [show rowMid.computed_growth_rate = (1:ℚ)/4 from rfl, hg]
    norm_num
  have hp : production_maturity rowMid = 1896/25 := by
    norm_num [production_maturity, score_prod_ratio, score_error_rate,
      score_model_diversity, rowMid]
  have ht : team_adoption rowMid = 100 := by
    norm_num [team_adoption, score_domain_users, score_enterprise_seats, rowMid]
  have hc : cross_channel rowMid = 100 := by
    norm_num [cross_channel, score_cross_channel, rowMid]
  have hr : risk_penalty rowMid = 0 := by
    norm_num [risk_penalty, compute_risk_penalty, rowMid]
  rw [total_score, hu, hp, ht, hc, hr]
  push_cast
  norm_num

theorem round1R_7796 : round1R 77.96 = 78 := by
  have hf : ⌊(77.96:ℝ) * 10⌋ = 779 := by
    apply Int.floor_eq_iff.mpr
    constructor <;> norm_num
  rw [round1R, rheR, hf]
  norm_num

/-! ### Claim theorems -/

/-- C1 (amended): for every account row, `score_account`'s composite equals
`clamp(0.30*UsageIntensity + 0.25*ProductionMaturity + 0.20*TeamAdoption
+ 0.15*CrossChannel - risk_penalty, 0, 100)` with the category compositions
as claimed; with all four category scores at 100 and risk penalty 0 the
composite is 90 (the four weights sum to 0.90), and with all categories at 0
and maximal risk penalty 10 the composite is 0, never negative. -/
theorem C1_composite_clamp_formula :
    (∀ row : Row, total_score row =
      max 0 (min 100
        (0.30 * (normalize_spend_log row.latest_total_spend 80000 * 0.4
            + (score_growth row.computed_growth_rate : ℝ) * 0.4
            + score_daily_requests row.daily_requests * 0.2)
          + 0.25 * ((score_prod_ratio row.prod_ratio : ℝ) * 0.4
            + (score_error_rate row.error_rate : ℝ) * 0.3
            + (score_model_diversity row.n_models : ℝ) * 0.3)
          + 0.20 * ((score_domain_users row.unique_users : ℝ) * 0.6
            + (score_enterprise_seats row.enterprise_seats : ℝ) * 0.4)
          + 0.15 * (score_cross_channel (row.n_active_channels : ℤ)
              row.marketplace_to_direct : ℝ)
          - (compute_risk_penalty row.days_inactive row.computed_growth_rate
              row.n_models : ℝ))))
    ∧ usage_intensity rowSat = 100 ∧ production_maturity rowSat = 100
    ∧ team_adoption rowSat = 100 ∧ cross_channel rowSat = 100
    ∧ risk_penalty rowSat = 0 ∧ total_score rowSat = 90
    ∧ usage_intensity rowZero = 0 ∧ production_maturity rowZero = 0
    ∧ team_adoption rowZero = 0 ∧ cross_channel rowZero = 0
    ∧ risk_penalty rowZero = 10 ∧ total_score rowZero = 0 := by
  refine ⟨?_, rowSat_usage, rowSat_production, rowSat_team, rowSat_cross,
    rowSat_risk, rowSat_total, rowZero_usage, rowZero_production, rowZero_team,
    rowZero_cross, rowZero_risk, rowZero_total⟩
  intro row
  have h : usage_intensity row * 0.30 + (production_maturity row : ℝ) * 0.25
      + (team_adoption row : ℝ) * 0.20 + (cross_channel row : ℝ) * 0.15
      - (risk_penalty row : ℝ) =
      0.30 * (normalize_spend_log row.latest_total_spend 80000 * 0.4
          + (score_growth row.computed_growth_rate : ℝ) * 0.4
          + score_daily_requests row.daily_requests * 0.2)
        + 0.25 * ((score_prod_ratio row.prod_ratio : ℝ) * 0.4
          + (score_error_rate row.error_rate : ℝ) * 0.3
          + (score_model_diversity row.n_models : ℝ) * 0.3)
        + 0.20 * ((score_domain_users row.unique_users : ℝ) * 0.6
          + (score_enterprise_seats row.enterprise_seats : ℝ) * 0.4)
        + 0.15 * (score_cross_channel (row.n_active_channels : ℤ)
            row.marketplace_to_direct : ℝ)
        - (compute_risk_penalty row.days_inactive row.computed_growth_rate
            row.n_models : ℝ) := by
    simp only [usage_intensity, production_maturity, team_adoption, cross_channel,
      risk_penalty]
    push_cast
    ring
  rw [total_score, h]

/-- C1 counterexample: at a concrete row with all four category scores equal
to 100 and risk penalty 0 the composite is not 100 (it is 90), refuting the
claim's saturated-input value. -/
theorem C1_counterexample_saturated :
    usage_intensity rowSat = 100 ∧ production_maturity rowSat = 100
    ∧ team_adoption rowSat = 100 ∧ cross_channel rowSat = 100
    ∧ risk_penalty rowSat = 0 ∧ total_score rowSat ≠ 100 :=
  ⟨rowSat_usage, rowSat_production, rowSat_team, rowSat_cross, rowSat_risk, by
    rw [rowSat_total]; norm_num⟩

/-- C2 (amended): every category scorer is a pure, total function mapping its
documented input domain to [0,100]; the cross-channel scorer stays in [0,100]
for every active-channel count of at least 1 (which holds whenever some
channel-spend field is positive) and every ratio, but not at 0 active
channels. -/
theorem C2_scorers_bounded :
    (∀ s ms : ℚ, 0 ≤ normalize_spend_log s ms ∧ normalize_spend_log s ms ≤ 100)
    ∧ (∀ g : ℚ, 0 ≤ score_growth g ∧ score_growth g ≤ 100)
    ∧ (∀ r : ℤ, 0 ≤ score_daily_requests r ∧ score_daily_requests r ≤ 100)
    ∧ (∀ p : ℚ, 0 ≤ p → p ≤ 1 → 0 ≤ score_prod_ratio p ∧ score_prod_ratio p ≤ 100)
    ∧ (∀ e : ℚ, 0 ≤ e → 0 ≤ score_error_rate e ∧ score_error_rate e ≤ 100)
    ∧ (∀ n : ℕ, 0 ≤ score_model_diversity n ∧ score_model_diversity n ≤ 100)
    ∧ (∀ u : ℕ, 0 ≤ score_domain_users u ∧ score_domain_users u ≤ 100)
    ∧ (∀ s : ℕ, 0 ≤ score_enterprise_seats s ∧ score_enterprise_seats s ≤ 100)
    ∧ (∀ (n : ℤ) (r : ℚ), 1 ≤ n →
        0 ≤ score_cross_channel n r ∧ score_cross_channel n r ≤ 100)
    ∧ (∀ d b v s : ℚ, 0 < d → 1 ≤ n_active_channels d b v s) := by
  have hspend : ∀ s ms : ℚ, 0 ≤ normalize_spend_log s ms
      ∧ normalize_spend_log s ms ≤ 100 := by
    intro s ms
    rw [normalize_spend_log]
    split_ifs
    · norm_num
    · exact ⟨le_min (by norm_num) (le_max_left 0 _), min_le_left _ _⟩
  have hgrowth : ∀ g : ℚ, 0 ≤ score_growth g ∧ score_growth g ≤ 100 := by
    intro g
    rw [score_growth]
    split_ifs with h1 h2 h3
    · norm_num
    · have e : (g - 0.20) / 0.30 * 60 = (g - 0.20) * 200 := by ring
      rw [e]; constructor <;> nlinarith
    · have e : g / 0.20 * 40 = g * 200 := by ring
      rw [e]; constructor <;> nlinarith
    · push_neg at h3
      exact ⟨le_max_left 0 _, max_le (by norm_num) (by nlinarith)⟩
  have hreq : ∀ r : ℤ, 0 ≤ score_daily_requests r ∧ score_daily_requests r ≤ 100 := by
    intro r
    rw [score_daily_requests]
    split_ifs
    · norm_num
    · exact ⟨le_min (by norm_num) (le_max_left 0 _), min_le_left _ _⟩
  have hprod : ∀ p : ℚ, 0 ≤ p → p ≤ 1 →
      0 ≤ score_prod_ratio p ∧ score_prod_ratio p ≤ 100 := by
    intro p hp0 hp1
    rw [score_prod_ratio]
    split_ifs with h1 h2
    · norm_num
    · have e : (p - 0.40) / 0.55 * 100 = (p - 0.40) * (2000/11) := by ring
      rw [e]; constructor <;> nlinarith
    · have e : p / 0.40 * 10 = p * 25 := by ring
      rw [e]; constructor <;> nlinarith
  have herr : ∀ e : ℚ, 0 ≤ e →
      0 ≤ score_error_rate e ∧ score_error_rate e ≤ 100 := by
    intro e he
    rw [score_error_rate]
    split_ifs with h1 h2 h3
    · norm_num
    · have eq1 : e / 0.005 * 50 = e * 10000 := by ring
      rw [eq1]; constructor <;> nlinarith
    · push_neg at h1
      have h4 : (0.02:ℚ) < e := h1 (not_lt.mp h2)
      have eq1 : 100 - (e - 0.02) / 0.03 * 80 = 100 - (e - 0.02) * (8000/3) := by ring
      rw [eq1]
      exact ⟨le_max_left 0 _, max_le (by norm_num) (by nlinarith)⟩
    · push_neg at h3
      have eq1 : 20 - (e - 0.05) / 0.05 * 20 = 20 - (e - 0.05) * 400 := by ring
      rw [eq1]
      exact ⟨le_max_left 0 _, max_le (by norm_num) (by nlinarith)⟩
  have hmod : ∀ n : ℕ, 0 ≤ score_model_diversity n ∧ score_model_diversity n ≤ 100 := by
    intro n
    rw [score_model_diversity]
    split_ifs <;> norm_num
  have husers : ∀ u : ℕ, 0 ≤ score_domain_users u ∧ score_domain_users u ≤ 100 := by
    intro u
    rw [score_domain_users]
    split_ifs with h
    · norm_num
    · have hu : (u:ℚ) ≤ 9 := by exact_mod_cast Nat.le_of_lt_succ (not_le.mp h)
      have h0 : (0:ℚ) ≤ (u:ℚ) := Nat.cast_nonneg u
      have e : (u:ℚ) / 10 * 100 = (u:ℚ) * 10 := by ring
      rw [e]; constructor <;> nlinarith
  have hseat : ∀ s : ℕ, 0 ≤ score_enterprise_seats s
      ∧ score_enterprise_seats s ≤ 100 := by
    intro s
    rw [score_enterprise_seats]
    split_ifs
    · norm_num
    · have h0 : (0:ℚ) ≤ (s:ℚ) := Nat.cast_nonneg s
      exact ⟨le_min (by norm_num) (by nlinarith), min_le_left _ _⟩
    · norm_num
  have hcross : ∀ (n : ℤ) (r : ℚ), 1 ≤ n →
      0 ≤ score_cross_channel n r ∧ score_cross_channel n r ≤ 100 := by
    intro n r hn
    have hn1 : (1:ℚ) ≤ (n:ℚ) := by exact_mod_cast hn
    have hbase : (0:ℚ) ≤ min 100 (((n:ℚ) - 1) * 40) :=
      le_min (by norm_num) (by nlinarith)
    simp only [score_cross_channel]
    split_ifs
    · exact ⟨le_min (by norm_num) (by linarith), min_le_left _ _⟩
    · exact ⟨hbase, min_le_left _ _⟩
  have hch : ∀ d b v s : ℚ, 0 < d → 1 ≤ n_active_channels d b v s := by
    intro d b v s hd
    rw [n_active_channels, if_pos hd]
    have e : 1 + (if 0 < b then 1 else 0) + (if 0 < v then 1 else 0)
        + (if 0 < s then 1 else 0)
        = 1 + ((if 0 < b then 1 else 0) + (if 0 < v then 1 else 0)
          + (if 0 < s then 1 else 0)) := by ring
    rw [e]
    exact Nat.le_add_right 1 _
  exact ⟨hspend, hgrowth, hreq, hprod, herr, hmod, husers, hseat, hcross, hch⟩

/-- C2 witness: the hypothesis-bearing conjuncts hold at concrete inputs. -/
theorem C2_scorers_bounded_witness :
    ((0:ℚ) ≤ 1/2 ∧ (1/2:ℚ) ≤ 1
      ∧ 0 ≤ score_prod_ratio (1/2) ∧ score_prod_ratio (1/2) ≤ 100)
    ∧ ((0:ℚ) ≤ 1/100 ∧ 0 ≤ score_error_rate (1/100) ∧ score_error_rate (1/100) ≤ 100)
    ∧ ((1:ℤ) ≤ 2 ∧ 0 ≤ score_cross_channel 2 1 ∧ score_cross_channel 2 1 ≤ 100)
    ∧ ((0:ℚ) < 5 ∧ 1 ≤ n_active_channels 5 0 0 0) := by
  have h4 := C2_scorers_bounded.2.2.2.1 (1/2) (by norm_num) (by norm_num)
  have h5 := C2_scorers_bounded.2.2.2.2.1 (1/100) (by norm_num)
  have h9 := C2_scorers_bounded.2.2.2.2.2.2.2.2.1 2 1 (by norm_num)
  have h10 := C2_scorers_bounded.2.2.2.2.2.2.2.2.2 5 0 0 0 (by norm_num)
  exact ⟨⟨by norm_num, by norm_num, h4.1, h4.2⟩, ⟨by norm_num, h5.1, h5.2⟩,
    ⟨by norm_num, h9.1, h9.2⟩, ⟨by norm_num, h10⟩⟩

/-- C2 counterexample: 0 active channels can arise (all four channel spends
zero), and there the cross-channel scorer returns -40, outside [0,100]. -/
theorem C2_counterexample_zero_channels :
    n_active_channels 0 0 0 0 = 0 ∧ score_cross_channel 0 0 = -40
    ∧ ¬ 0 ≤ score_cross_channel 0 0 := by
  have h : score_cross_channel 0 0 = -40 := by norm_num [score_cross_channel]
  refine ⟨by norm_num [n_active_channels], h, ?_⟩
  rw [h]
  norm_num

/-- C3: stage assignment is a total deterministic function of the composite
via ordered descending thresholds with first match winning: exactly one of
the five stages holds on each of the five intervals partitioning the scores,
and 78.0 maps to "Enterprise Ready" while 77.9 maps to "High Velocity". -/
theorem C3_stage_thresholds :
    (∀ s : ℝ,
      (assign_stage s = "Enterprise Ready" ↔ 78 ≤ s)
      ∧ (assign_stage s = "High Velocity" ↔ 63 ≤ s ∧ s < 78)
      ∧ (assign_stage s = "Qualified" ↔ 48 ≤ s ∧ s < 63)
      ∧ (assign_stage s = "Nurture" ↔ 33 ≤ s ∧ s < 48)
      ∧ (assign_stage s = "At Risk" ↔ s < 33))
    ∧ assign_stage 78 = "Enterprise Ready"
    ∧ assign_stage 77.9 = "High Velocity" := by
  have hchar : ∀ s : ℝ,
      (assign_stage s = "Enterprise Ready" ↔ 78 ≤ s)
      ∧ (assign_stage s = "High Velocity" ↔ 63 ≤ s ∧ s < 78)
      ∧ (assign_stage s = "Qualified" ↔ 48 ≤ s ∧ s < 63)
      ∧ (assign_stage s = "Nurture" ↔ 33 ≤ s ∧ s < 48)
      ∧ (assign_stage s = "At Risk" ↔ s < 33) := by
    intro s
    rw [assign_stage_ite]
    split_ifs with h1 h2 h3 h4 h5 <;>
      refine ⟨?_, ?_, ?_, ?_, ?_⟩ <;> simp <;> intros <;>
      first | linarith | (constructor <;> linarith)
  exact ⟨hchar, (hchar 78).1.mpr (by norm_num),
    (hchar 77.9).2.1.mpr (by norm_num)⟩

/-- C4 (amended): the growth scorer is monotone non-decreasing on nonnegative
growth rates and on negative growth rates separately, with exact boundary
values 100 at 0.50 and 40 at 0.20, and the adjacent segment formulas agree at
both interior boundaries; across 0 monotonicity fails (see the
counterexample), because negative rates score `max(0, 20+x*100)`. -/
theorem C4_growth_monotone_segments :
    (∀ x y : ℚ, 0 ≤ x → x ≤ y → score_growth x ≤ score_growth y)
    ∧ (∀ x y : ℚ, x ≤ y → y < 0 → score_growth x ≤ score_growth y)
    ∧ score_growth 0.50 = 100 ∧ score_growth 0.20 = 40
    ∧ 40 + ((0.50:ℚ) - 0.20) / 0.30 * 60 = 100
    ∧ (0.20:ℚ) / 0.20 * 40 = 40 := by
  refine ⟨?_, ?_, by norm_num [score_growth], by norm_num [score_growth],
    by norm_num, by norm_num⟩
  · intro x y hx hxy
    rw [score_growth_nonneg_eq x hx, score_growth_nonneg_eq y (hx.trans hxy)]
    exact min_le_min le_rfl (by linarith)
  · intro x y hxy hy
    have hx : x < 0 := lt_of_le_of_lt hxy hy
    have ex : score_growth x = max 0 (20 + x * 100) := by
      rw [score_growth, if_neg (by linarith), if_neg (by linarith),
        if_neg (by linarith)]
    have ey : score_growth y = max 0 (20 + y * 100) := by
      rw [score_growth, if_neg (by linarith), if_neg (by linarith),
        if_neg (by linarith)]
    rw [ex, ey]
    exact max_le_max le_rfl (by linarith)

/-- C4 witness: monotonicity instances at concrete points in each regime. -/
theorem C4_growth_monotone_segments_witness :
    ((0:ℚ) ≤ 0 ∧ (0:ℚ) ≤ 1/4 ∧ score_growth 0 ≤ score_growth (1/4))
    ∧ ((-2:ℚ) ≤ -1 ∧ (-1:ℚ) < 0 ∧ score_growth (-2) ≤ score_growth (-1)) :=
  ⟨⟨le_refl 0, by norm_num,
    C4_growth_monotone_segments.1 0 (1/4) le_rfl (by norm_num)⟩,
   ⟨by norm_num, by norm_num,
    C4_growth_monotone_segments.2.1 (-2) (-1) (by norm_num) (by norm_num)⟩⟩

/-- C4 counterexample: the growth scorer is not monotone over all rates:
-0.1 <= 0 but score(-0.1) = 10 > 0 = score(0). -/
theorem C4_counterexample_negative_jump :
    (-1/10 : ℚ) ≤ 0 ∧ score_growth (-1/10) = 10 ∧ score_growth 0 = 0
    ∧ ¬ score_growth (-1/10) ≤ score_growth 0 := by
  have h1 : score_growth (-1/10 : ℚ) = 10 := by norm_num [score_growth]
  have h2 : score_growth (0 : ℚ) = 0 := by norm_num [score_growth]
  refine ⟨by norm_num, h1, h2, ?_⟩
  rw [h1, h2]
  norm_num

/-- C5 (amended): in the growth-rate derivation only a zero-to-zero change is
undefined (NaN) and excluded from the average; a change from a zero-spend
bucket to a positive one yields +infinity, which is kept by `dropna` and
propagates into the result; `compute_growth_rate` returns 0 whenever no
changes remain after dropping NaN (and when fewer than 2 buckets exist). -/
theorem C5_zero_bucket_handling :
    (∀ totals : List ℚ, totals.length < 2 → compute_growth_rate totals = .fin 0)
    ∧ pctOne 0 0 = .nan
    ∧ (∀ q : ℚ, 0 < q → pctOne 0 q = .posinf)
    ∧ compute_growth_rate [0, 0] = .fin 0
    ∧ (∀ q : ℚ, 0 < q → compute_growth_rate [0, q] = .posinf) := by
  refine ⟨?_, ?_, ?_, ?_, ?_⟩
  · intro totals h
    rw [compute_growth_rate, if_pos h]
  · rw [pctOne, if_pos rfl, if_pos rfl]
  · intro q hq
    rw [pctOne, if_pos rfl, if_neg hq.ne', if_pos hq]
  · norm_num [compute_growth_rate, lastN, pct_changes, pctOne, dropna]
  · intro q hq
    have hpc : pct_changes [0, q] = [.posinf] := by
      rw [pct_changes, pct_changes, pctOne, if_pos rfl, if_neg hq.ne', if_pos hq]
    simp only [compute_growth_rate]
    rw [if_neg (by norm_num)]
    have hrec : lastN 4 [0, q] = [0, q] := rfl
    rw [hrec, hpc]
    have hdn : dropna [PdVal.posinf] = [PdVal.posinf] := rfl
    rw [hdn, if_neg (by simp)]
    rfl

/-- C5 witness: the hypothesis-bearing conjuncts at concrete inputs. -/
theorem C5_zero_bucket_handling_witness :
    ([(5:ℚ)].length < 2 ∧ compute_growth_rate [5] = .fin 0)
    ∧ ((0:ℚ) < 100 ∧ pctOne 0 100 = .posinf
       ∧ compute_growth_rate [0, 100] = .posinf) :=
  ⟨⟨by norm_num, C5_zero_bucket_handling.1 [5] (by norm_num)⟩,
   ⟨by norm_num, C5_zero_bucket_handling.2.2.1 100 (by norm_num),
    C5_zero_bucket_handling.2.2.2.2 100 (by norm_num)⟩⟩

/-- C5 counterexample: a zero-spend bucket followed by positive spend is not
excluded: the +infinity change propagates and the result is not 0. -/
theorem C5_counterexample_inf_propagates :
    compute_growth_rate [0, 100] = .posinf
    ∧ compute_growth_rate [0, 100] ≠ .fin 0 := by
  have h : compute_growth_rate [0, 100] = .posinf := by
    norm_num [compute_growth_rate, lastN, pct_changes, pctOne, dropna, pdSum,
      pdAdd, pdDivNat, pdAnnualize]
  exact ⟨h, by rw [h]; intro hcon; exact PdVal.noConfusion hcon⟩

/-- C6: for every combination of days inactive, growth rate and model count,
the risk penalty lies in [0,10] and equals the clamp to [0,10] of the sum of
the four claimed contributions; in particular the extreme input
(10000, -5.0, 0) yields exactly 10. -/
theorem C6_risk_penalty_bounds :
    (∀ (d : ℤ) (g : ℚ) (n : ℕ),
      0 ≤ compute_risk_penalty d g n ∧ compute_risk_penalty d g n ≤ 10
      ∧ compute_risk_penalty d g n =
        max 0 (min 10
          ((if 14 < d then (4:ℚ) else if 7 < d ∧ d ≤ 14 then ((d:ℚ) - 7) / 7 * 4 else 0)
            + (if g < 0 then min 4 (|g| * 20) else 0)
            + (if n ≤ 1 then (2:ℚ) else 0))))
    ∧ compute_risk_penalty 10000 (-5) 0 = 10 := by
  constructor
  · intro d g n
    simp only [compute_risk_penalty]
    have e1 : (if 14 < d then (4.0:ℚ) else if 7 < d then ((d:ℚ) - 7) / 7 * 4.0 else 0)
        = (if 14 < d then (4:ℚ) else if 7 < d ∧ d ≤ 14 then ((d:ℚ) - 7) / 7 * 4 else 0) := by
      split_ifs <;> first | (exfalso; omega) | norm_num
    have e2 : (if g < 0 then min (4.0:ℚ) (|g| * 20) else 0)
        = (if g < 0 then min (4:ℚ) (|g| * 20) else 0) := by norm_num
    have e3 : (10.0:ℚ) = 10 := by norm_num
    have e4 : (2.0:ℚ) = 2 := by norm_num
    rw [e1, e2, e3, e4]
    have h1 : 0 ≤ (if 14 < d then (4:ℚ)
        else if 7 < d ∧ d ≤ 14 then ((d:ℚ) - 7) / 7 * 4 else 0) := by
      split_ifs with ha hb
      · norm_num
      · have hd7 : (7:ℚ) < (d:ℚ) := by exact_mod_cast hb.1
        have h7 : (0:ℚ) ≤ ((d:ℚ) - 7) / 7 := div_nonneg (by linarith) (by norm_num)
        linarith
      · exact le_refl 0
    have h2 : 0 ≤ (if g < 0 then min (4:ℚ) (|g| * 20) else 0) := by
      split_ifs
      · exact le_min (by norm_num) (by positivity)
      · exact le_refl 0
    have h3 : 0 ≤ (if n ≤ 1 then (2:ℚ) else 0) := by split_ifs <;> norm_num
    have hs : 0 ≤ min (10:ℚ)
        ((if 14 < d then (4:ℚ) else if 7 < d ∧ d ≤ 14 then ((d:ℚ) - 7) / 7 * 4 else 0)
          + (if g < 0 then min 4 (|g| * 20) else 0)
          + (if n ≤ 1 then (2:ℚ) else 0)) :=
      le_min (by norm_num) (by linarith)
    exact ⟨hs, min_le_left _ _, (max_eq_right hs).symm⟩
  · norm_num [compute_risk_penalty]

/-- C7: the enriched record's computed growth rate is
`round(0.7*stored + 0.3*derived, 4)` (0.10 and 0.20 blend to exactly 0.13);
the derived rate is 0 below 2 buckets and otherwise, on positive buckets,
annualizes the average period-over-period change of the last 4 buckets via
`(1+avg)^12 - 1`. -/
theorem C7_blended_growth :
    (∀ s d : ℚ, blended_growth s (.fin d) = .fin (round4 (0.7 * s + 0.3 * d)))
    ∧ blended_growth 0.10 (.fin 0.20) = .fin 0.13
    ∧ (∀ totals : List ℚ, totals.length < 2 → compute_growth_rate totals = .fin 0)
    ∧ (∀ totals : List ℚ, 2 ≤ totals.length → (∀ x ∈ lastN 4 totals, 0 < x) →
        compute_growth_rate totals =
          .fin ((1 + spec_avg (spec_pct_changes (lastN 4 totals))) ^ 12 - 1)) := by
  refine ⟨?_, ?_, ?_, ?_⟩
  · intro s d
    simp only [blended_growth, pdScale, pdAdd, pdRound4]
    have h : s * 0.7 + d * 0.3 = 0.7 * s + 0.3 * d := by ring
    rw [h]
  · norm_num [blended_growth, pdScale, pdAdd, pdRound4, round4, rheQ]
  · intro totals h
    rw [compute_growth_rate, if_pos h]
  · intro totals h2 hp
    have hne : ∀ x ∈ lastN 4 totals, x ≠ 0 := fun x hx => (hp x hx).ne'
    have hlen : 2 ≤ (lastN 4 totals).length := by
      rw [lastN, List.length_drop]; omega
    have hql : (spec_pct_changes (lastN 4 totals)).length
        = (lastN 4 totals).length - 1 := spec_pct_changes_length _
    simp only [compute_growth_rate]
    rw [if_neg (by omega)]
    rw [pct_changes_of_ne_zero _ hne, dropna_map_fin]
    rw [if_neg ?hne2]
    case hne2 =>
      intro hcon
      apply_fun List.length at hcon
      rw [List.length_map, hql] at hcon
      simp at hcon
      omega
    rw [pdSum_map_fin]
    simp only [List.length_map, pdDivNat, pdAnnualize, spec_avg, hql]

/-- C7 witness: the hypothesis-bearing conjuncts at concrete bucket lists. -/
theorem C7_blended_growth_witness :
    ([(5:ℚ)].length < 2 ∧ compute_growth_rate [5] = .fin 0)
    ∧ (2 ≤ [(100:ℚ), 110, 121].length
       ∧ (∀ x ∈ lastN 4 [(100:ℚ), 110, 121], 0 < x)
       ∧ compute_growth_rate [(100:ℚ), 110, 121] =
           .fin ((1 + spec_avg (spec_pct_changes (lastN 4 [(100:ℚ), 110, 121]))) ^ 12 - 1)) := by
  have hpos : ∀ x ∈ lastN 4 [(100:ℚ), 110, 121], 0 < x := by
    intro x hx
    have e : lastN 4 [(100:ℚ), 110, 121] = [100, 110, 121] := rfl
    rw [e] at hx
    simp only [List.mem_cons, List.not_mem_nil, or_false] at hx
    rcases hx with rfl | rfl | rfl <;> norm_num
  exact ⟨⟨by norm_num, C7_blended_growth.2.2.1 [5] (by norm_num)⟩,
    ⟨by norm_num, hpos, C7_blended_growth.2.2.2 [100, 110, 121] (by norm_num) hpos⟩⟩

/-- C8: when the direct-spend denominator is 0, the marketplace-to-direct
ratio is the exact sentinel 99.0 for every marketplace spend, with no
division-by-zero fault (division never occurs on that branch). -/
theorem C8_zero_direct_sentinel :
    (∀ m : ℚ, marketplace_to_direct_ratio m 0 = 99)
    ∧ marketplace_to_direct_ratio 500 0 = 99 := by
  have h : ∀ m : ℚ, marketplace_to_direct_ratio m 0 = 99 := by
    intro m
    rw [marketplace_to_direct_ratio, if_neg (by norm_num)]
    norm_num
  exact ⟨h, h 500⟩

/-- C9: the recommended action is a deterministic lookup keyed by stage with
first match winning; within "Qualified" the order is model count <= 1 first,
then production ratio below 0.6, then the default, and once an earlier
condition matches the later ones are never consulted. -/
theorem C9_qualified_action_order :
    ∀ row : ScoredRow, row.stage = "Qualified" →
      (row.n_models ≤ 1 →
        get_recommended_action row =
          "Share multi-model use case guide; suggest Sonnet for cost optimization")
      ∧ (1 < row.n_models → row.prod_ratio < 0.6 →
        get_recommended_action row =
          "Offer production deployment support; share best practices")
      ∧ (1 < row.n_models → 0.6 ≤ row.prod_ratio →
        get_recommended_action row =
          "Assign SDR for discovery call; share enterprise case studies") := by
  intro row hstage
  rw [get_recommended_action, hstage]
  rw [if_neg (by simp), if_neg (by simp), if_pos rfl]
  refine ⟨fun hm => by rw [if_pos hm],
    fun hm hp => by rw [if_neg (by omega), if_pos hp],
    fun hm hp => by rw [if_neg (by omega), if_neg (not_lt.mpr hp)]⟩

/-- C9 witness: the three "Qualified" branches at concrete scored rows. -/
theorem C9_qualified_action_order_witness :
    get_recommended_action ⟨"Qualified", 0, 1, 1/2, 0, 0⟩ =
      "Share multi-model use case guide; suggest Sonnet for cost optimization"
    ∧ get_recommended_action ⟨"Qualified", 0, 2, 1/2, 0, 0⟩ =
      "Offer production deployment support; share best practices"
    ∧ get_recommended_action ⟨"Qualified", 0, 2, 7/10, 0, 0⟩ =
      "Assign SDR for discovery call; share enterprise case studies" :=
  ⟨(C9_qualified_action_order ⟨"Qualified", 0, 1, 1/2, 0, 0⟩ rfl).1 (by norm_num),
   (C9_qualified_action_order ⟨"Qualified", 0, 2, 1/2, 0, 0⟩ rfl).2.1 (by norm_num)
     (by norm_num),
   (C9_qualified_action_order ⟨"Qualified", 0, 2, 7/10, 0, 0⟩ rfl).2.2 (by norm_num)
     (by norm_num)⟩

/-- C10: `score_account` assigns the stage from the unrounded composite but
reports the composite rounded to one decimal: at a concrete row the returned
record has conversion score exactly 78.0 (the "Enterprise Ready" threshold)
while its stage is "High Velocity", so the reported score and stage disagree
with the thresholds applied to the rounded score. -/
theorem C10_rounded_score_stage_disagreement :
    (∀ row : Row, (score_account row).stage = assign_stage (total_score row)
      ∧ (score_account row).conversion_score = round1R (total_score row))
    ∧ (score_account rowMid).conversion_score = 78
    ∧ (score_account rowMid).stage = "High Velocity"
    ∧ assign_stage ((score_account rowMid).conversion_score) = "Enterprise Ready" := by
  have h1 : (score_account rowMid).conversion_score = 78 := by
    show round1R (total_score rowMid) = 78
    rw [rowMid_total, round1R_7796]
  refine ⟨fun row => ⟨rfl, rfl⟩, h1, ?_, ?_⟩
  · show assign_stage (total_score rowMid) = "High Velocity"
    rw [rowMid_total, assign_stage_ite]
    norm_num
  · rw [h1, assign_stage_ite]
    norm_num

end Conv
